import Mathlib

/-!
Verification model of the use-captured-state library.

Shallow embedding of the captured-value store from `src/lib/index.js`
(the published implementation) together with the older near-duplicate
variants found in the repository sources.

The store of `useCapturedProviderValue()` in `src/lib/index.js` consists of
three pieces of per-provider state:

* `values`  — a mutable plain object (`useRef({})`) mapping string keys to
  arbitrary values; modelled as an association list `List (String × V)`
  whose keys are produced by JS object assignment semantics (overwriting a
  present key in place, appending an absent one);
* `staleState` — a mutable boolean ref (`useRef(false)`), the dirty flag;
* `render` — a boolean `useState(false)` that `forceRerender` toggles via
  `setRender(!render)` to trigger a reconciliation of dependents.

Each operation of the capability bundle is modelled as a function
`Store V → Store V × ρ`, where `ρ` is the operation's JS return value
(`Unit` models returning `undefined`).
-/

namespace CapturedState

variable {V : Type}

/-- JS property read `m[k]` on a plain object modelled as an association
list: the first (and, for lists built by `objAssign`, only) binding of `k`,
or `none` when the property is absent (JS `undefined`). -/
def objLookup (m : List (String × V)) (k : String) : Option V :=
  match m with
  | [] => none
  | (k₀, v₀) :: rest => if k₀ = k then some v₀ else objLookup rest k

/-- JS property write `m[k] = v` on a plain object: overwrite the binding in
place when `k` is already a key, otherwise append a new binding (JS objects
keep insertion order for string keys). -/
def objAssign (m : List (String × V)) (k : String) (v : V) : List (String × V) :=
  match m with
  | [] => [(k, v)]
  | (k₀, v₀) :: rest => if k₀ = k then (k, v) :: rest else (k₀, v₀) :: objAssign rest k v

/-- JS `delete m[k]` on a plain object: drop the binding of `k`, keeping the
relative order of the remaining properties. -/
def objDelete (m : List (String × V)) (k : String) : List (String × V) :=
  match m with
  | [] => []
  | (k₀, v₀) :: rest => if k₀ = k then objDelete rest k else (k₀, v₀) :: objDelete rest k

/-- The per-provider state of `useCapturedProviderValue()` in
`src/lib/index.js`: the `values` ref, the `staleState` ref, and the
`render` boolean state. -/
structure Store (V : Type) where
  values : List (String × V)
  stale : Bool
  render : Bool
deriving DecidableEq, Repr

/-- The state on first mount: `useRef({})`, `useRef(false)`,
`useState(false)`. -/
def initialStore : Store V := ⟨[], false, false⟩

/-- Source: `const makeStale = () => staleState.current = true;` -/
def makeStale (s : Store V) : Store V :=
  { s with stale := true }

/-- Source: `const getValues = () => values.current;` — returns the live mapping. -/
def getValues (s : Store V) : List (String × V) :=
  s.values

/-- Models `forceRerender(smart)` from `src/lib/index.js` (the JS default for
`smart` is `true`):
`if(smart && !staleState.current) return; setRender(!render);`
Toggling `render` is what triggers a reconciliation, so the call triggers a
reconciliation exactly when the resulting state differs from the input. -/
def forceRerender (smart : Bool) (s : Store V) : Store V × Unit :=
  if smart && !s.stale then (s, ())
  else ({ s with render := !s.render }, ())

/-- Models `updateKey(key, value)`: `makeStale(); values.current[key] = value;`
The arrow-function body is a block, so the JS return value is `undefined`. -/
def updateKey (k : String) (v : V) (s : Store V) : Store V × Unit :=
  let s₁ := makeStale s
  ({ s₁ with values := objAssign s₁.values k v }, ())

/-- The `for(const key in batchValues)` loop of `batchUpdateKeys`, iterating
the own enumerable keys of the argument object in order (its
`hasOwnProperty` guard always passes for a plain object's own keys) and
calling `updateKey` for each. -/
def updateAll (batchValues : List (String × V)) (s : Store V) : Store V :=
  batchValues.foldl (fun acc kv => (updateKey kv.1 kv.2 acc).1) s

/-- Models `batchUpdateKeys(batchValues)` from `src/lib/index.js`: calls
`makeStale()` unconditionally, then `updateKey` for every own key of
`batchValues`, and returns `getValues()`. -/
def batchUpdateKeys (batchValues : List (String × V)) (s : Store V) :
    Store V × List (String × V) :=
  let s₁ := updateAll batchValues (makeStale s)
  (s₁, getValues s₁)

/-- Models `removeKey(key)`:
`if(!(key in values.current)) return; makeStale(); delete values.current[key];`
Returns `undefined` either way. -/
def removeKey (k : String) (s : Store V) : Store V × Unit :=
  if (objLookup s.values k).isSome then
    ({ s with stale := true, values := objDelete s.values k }, ())
  else (s, ())

/-- The `keyList.forEach(key => removeKey(key))` loop of
`batchRemoveKeys`. -/
def removeAll (keyList : List String) (s : Store V) : Store V :=
  keyList.foldl (fun acc k => (removeKey k acc).1) s

/-- Models `batchRemoveKeys(keyList)` from `src/lib/index.js`: `removeKey` for each
listed key in order, then returns `getValues()`. -/
def batchRemoveKeys (keyList : List String) (s : Store V) :
    Store V × List (String × V) :=
  let s₁ := removeAll keyList s
  (s₁, getValues s₁)

/-!
The out-of-provider default bundle (`captureDefaultValue`).

`createContext(captureDefaultValue)` makes every consumer hook outside a
provider receive `captureDefaultValue`. Its functions close over no state at
all, so each is modelled as a pure function of its arguments. Note the
source line `getValues: () => {}`: the braces are an empty *block* body, so
this function returns `undefined` (modelled `none`), not an empty object
(which would be `some []`). -/
structure CaptureBundle (V : Type) where
  updateKey : String → V → Unit
  batchUpdateKeys : List (String × V) → Unit
  removeKey : String → Unit
  batchRemoveKeys : List String → Unit
  getValues : Unit → Option (List (String × V))
  forceRerender : Bool → Unit

/-- Models `captureDefaultValue` from `src/lib/index.js`, lines 73–80: every field
is `() => {}`, a no-op returning `undefined`. -/
def captureDefaultValue : CaptureBundle V :=
  { updateKey := fun _ _ => ()
    batchUpdateKeys := fun _ => ()
    removeKey := fun _ => ()
    batchRemoveKeys := fun _ => ()
    getValues := fun _ => none
    forceRerender := fun _ => () }

/-- Models `useCapturedValues()` evaluated outside any provider:
`useCaptureContextValue().getValues()` resolves the context to
`captureDefaultValue`, so this is `captureDefaultValue.getValues()`. -/
def useCapturedValuesNoProvider : Option (List (String × V)) :=
  (captureDefaultValue (V := V)).getValues ()

/-!
The older variant in `src/unnamed/part_001`.

Its provider keeps `capturedValues` in `useState({})` and every mutation
builds a fresh object with a spread; each operation is a pure function of
the previous mapping. Its `batchUpdateKeys` reads:

  for(const key of batchValues) { ... }

`for...of` starts by requesting an iterator from its operand; a plain
object (the documented `@param \x7bObject\x7d batchValues`) has no
`Symbol.iterator`, so the statement throws
`TypeError: batchValues is not iterable` before the loop body ever runs.
Fallible evaluation is modelled with `Except`. -/

/-- Argument values a caller can pass to `batchUpdateKeys` in the part_001
variant: a plain object (an own-entry list) or an array. Only arrays carry
an iterator. -/
inductive JSArg (V : Type) where
  | plainObject (entries : List (String × V))
  | array (elems : List V)
deriving DecidableEq, Repr

/-- Whether `for...of` can iterate the argument: arrays have a
`Symbol.iterator`, plain objects do not. -/
def hasIterator : JSArg V → Bool
  | .plainObject _ => false
  | .array _ => true

/-- Models `updateKey` of part_001: `setCapturedValues(old => ({...old, [key]: value}))`
as a pure function on the mapping. -/
def updateKey001 (m : List (String × V)) (k : String) (v : V) : List (String × V) :=
  objAssign m k v

/-- Models `batchUpdateKeys` of part_001 (lines 57–66): attempts
`for(const key of batchValues)`. Evaluation throws a `TypeError` whenever
the argument has no iterator — in particular for every plain-object mapping.
(For an array the loop would run over element values; `hasOwnProperty`
checks on those values are not modelled because iteration never even starts
for the documented object arguments, which is the behaviour at issue.) -/
def batchUpdateKeys001 (oldState : List (String × V)) (batchValues : JSArg V) :
    Except String (List (String × V)) :=
  if hasIterator batchValues then Except.ok oldState
  else Except.error "TypeError: batchValues is not iterable"

/-- Models `removeKey` of part_001: spread copy then `delete`. -/
def removeKey001 (m : List (String × V)) (k : String) : List (String × V) :=
  objDelete m k

/-- Models `batchRemoveKeys` of part_001: spread copy then `delete` for each listed
key. -/
def batchRemoveKeys001 (m : List (String × V)) (keyList : List String) :
    List (String × V) :=
  keyList.foldl (fun acc k => objDelete acc k) m

/-!
The per-field hook effects and unmount behaviour.

`useCapturedState` in every variant registers one `useEffect` whose callback
body is a block ending in a statement (`updateKey(...)`), so the callback
returns `undefined`: no cleanup function is handed to the framework.
An effect is modelled as the state transition it performs paired with the
cleanup it registers (`none` = no cleanup). Unmount runs the registered
cleanup if there is one. -/

/-- Run an unmount cleanup: the framework calls the registered cleanup
function, or does nothing when none was registered. -/
def runUnmount {σ : Type} (cleanup : Option (σ → σ)) (s : σ) : σ :=
  match cleanup with
  | none => s
  | some f => f s

/-- The effect of `useCapturedState` in `src/lib/index.js` (lines 209–211):
`useEffect(() => { capturedProviderValue.updateKey(name, capturedState); },
[capturedState]);` — writes the local state through and registers no
cleanup. -/
def useCapturedStateEffect (name : String) (capturedState : V) (s : Store V) :
    Store V × Option (Store V → Store V) :=
  ((updateKey name capturedState s).1, none)

/-- The effect of `useCapturedState` in part_001 (lines 168–170) and
part_002 (lines 53–55): `useEffect(() => { updateKey(name, defaultValue); },
[]);` — writes the default through once and registers no cleanup. -/
def useCapturedStateEffect001 (name : String) (defaultValue : V)
    (m : List (String × V)) :
    List (String × V) × Option (List (String × V) → List (String × V)) :=
  (updateKey001 m name defaultValue, none)

/-! Lemmas about the object model. -/

theorem objLookup_objAssign_self (m : List (String × V)) (k : String) (v : V) :
    objLookup (objAssign m k v) k = some v := by
  induction m with
  | nil => simp [objAssign, objLookup]
  | cons p rest ih =>
    by_cases h : p.1 = k
    · simp [objAssign, objLookup, h]
    · simp [objAssign, objLookup, h, ih]

theorem objLookup_objAssign_ne (m : List (String × V)) (k k₁ : String) (v : V)
    (h : k₁ ≠ k) : objLookup (objAssign m k v) k₁ = objLookup m k₁ := by
  induction m with
  | nil => simp [objAssign, objLookup, Ne.symm h]
  | cons p rest ih =>
    obtain ⟨k₀, v₀⟩ := p
    by_cases hp : k₀ = k <;> by_cases hq : k₀ = k₁ <;>
      simp_all [objAssign, objLookup, Ne.symm h]

theorem objLookup_objDelete (m : List (String × V)) (k k₁ : String) :
    objLookup (objDelete m k) k₁ =
      if k₁ = k then none else objLookup m k₁ := by
  induction m with
  | nil => simp [objDelete, objLookup]
  | cons p rest ih =>
    obtain ⟨k₀, v₀⟩ := p
    by_cases hp : k₀ = k <;> by_cases hq : k₀ = k₁ <;> by_cases hr : k₁ = k <;>
      simp_all [objDelete, objLookup]

theorem objDelete_comm (m : List (String × V)) (a b : String) :
    objDelete (objDelete m a) b = objDelete (objDelete m b) a := by
  induction m with
  | nil => rfl
  | cons p rest ih =>
    obtain ⟨k₀, v₀⟩ := p
    by_cases ha : k₀ = a <;> by_cases hb : k₀ = b <;>
      simp_all [objDelete]

/-! Lemmas about the store operations. -/

theorem removeKey_comm (a b : String) (s : Store V) :
    (removeKey b (removeKey a s).1).1 = (removeKey a (removeKey b s).1).1 := by
  by_cases hab : a = b
  · subst hab; rfl
  · by_cases ha : (objLookup s.values a).isSome <;>
      by_cases hb : (objLookup s.values b).isSome <;>
      simp [removeKey, ha, hb, objLookup_objDelete, hab, Ne.symm hab,
        objDelete_comm s.values a b]

theorem removeAll_cons (k : String) (l : List String) (s : Store V) :
    removeAll (k :: l) s = removeAll l (removeKey k s).1 := rfl

theorem removeAll_perm {l₁ l₂ : List String} (hp : l₁.Perm l₂) :
    ∀ s : Store V, removeAll l₁ s = removeAll l₂ s := by
  induction hp with
  | nil => intro s; rfl
  | cons x _ ih =>
    intro s
    rw [removeAll_cons, removeAll_cons, ih]
  | swap x y l =>
    intro s
    rw [removeAll_cons, removeAll_cons, removeAll_cons, removeAll_cons,
      removeKey_comm y x s]
  | trans _ _ ih₁ ih₂ =>
    intro s
    exact (ih₁ s).trans (ih₂ s)

theorem updateAll_cons (kv : String × V) (l : List (String × V)) (s : Store V) :
    updateAll (kv :: l) s = updateAll l (updateKey kv.1 kv.2 s).1 := rfl

theorem updateKey_fst_values (k : String) (v : V) (s : Store V) :
    (updateKey k v s).1.values = objAssign s.values k v := rfl

theorem objLookup_updateAll_not_mem (m : List (String × V)) (s : Store V)
    (k : String) (h : k ∉ m.map Prod.fst) :
    objLookup (updateAll m s).values k = objLookup s.values k := by
  induction m generalizing s with
  | nil => rfl
  | cons kv rest ih =>
    simp only [List.map_cons, List.mem_cons, not_or] at h
    rw [updateAll_cons, ih _ h.2, updateKey_fst_values,
      objLookup_objAssign_ne _ _ _ _ h.1]

theorem objLookup_updateAll_mem (m : List (String × V)) (s : Store V)
    (k : String) (v : V) (hnd : (m.map Prod.fst).Nodup) (hmem : (k, v) ∈ m) :
    objLookup (updateAll m s).values k = some v := by
  induction m generalizing s with
  | nil => cases hmem
  | cons kv rest ih =>
    simp only [List.map_cons, List.nodup_cons] at hnd
    rcases List.mem_cons.mp hmem with heq | hrest
    · subst heq
      rw [updateAll_cons, objLookup_updateAll_not_mem _ _ _ hnd.1,
        updateKey_fst_values, objLookup_objAssign_self]
    · rw [updateAll_cons]
      exact ih _ hnd.2 hrest

/-! Concrete stores used by witnesses and counterexamples. -/

/-- A store holding one key, clean, as reached by mounting and reconciling
nothing yet. -/
def sampleStore : Store Nat := ⟨[("a", 1)], false, false⟩

/-- A store with two keys, used for batch-removal witnesses. -/
def samplePairStore : Store Nat := ⟨[("a", 1), ("b", 2)], false, false⟩

/-- A dirty store: some mutation has happened since mount. -/
def dirtyStore : Store Nat := ⟨[], true, false⟩

/-- Tiny helper: two stores differing in the `render` field are different
states, which is exactly what "`setRender` toggled, a reconciliation was
triggered" means in the model. -/
theorem store_ne_of_render_ne {s t : Store V} (h : s.render ≠ t.render) :
    s ≠ t :=
  fun he => h (congrArg Store.render he)

/-! Claim theorems. -/

/-- C2: for all keys `k` and values `v`, after `updateKey k v` the lookup of
`k` in `getValues()` yields `v`, the dirty flag is set, and the call returns
`undefined`. The value type `V` is an arbitrary type parameter: no
constraint is placed on `v`. -/
theorem updateKey_spec (k : String) (v : V) (s : Store V) :
    objLookup (getValues (updateKey k v s).1) k = some v ∧
    (updateKey k v s).1.stale = true ∧
    (updateKey k v s).2 = () := by
  refine ⟨?_, rfl, rfl⟩
  exact objLookup_objAssign_self s.values k v

/-- C3: after `batchUpdateKeys m` every own entry `(k, v)` of the mapping
`m` (a JS object, hence with distinct keys) is found in `getValues()`, every
key outside `m` keeps its previous value, and the call returns the full
post-update mapping. -/
theorem batchUpdateKeys_spec (m : List (String × V)) (s : Store V)
    (hnd : (m.map Prod.fst).Nodup) :
    (∀ k v, (k, v) ∈ m →
      objLookup (getValues (batchUpdateKeys m s).1) k = some v) ∧
    (∀ k, k ∉ m.map Prod.fst →
      objLookup (getValues (batchUpdateKeys m s).1) k = objLookup s.values k) ∧
    (batchUpdateKeys m s).2 = getValues (batchUpdateKeys m s).1 := by
  refine ⟨fun k v hmem => ?_, fun k hk => ?_, rfl⟩
  · exact objLookup_updateAll_mem m (makeStale s) k v hnd hmem
  · exact objLookup_updateAll_not_mem m (makeStale s) k hk

/-- Witness for C3 at a concrete two-entry mapping. -/
theorem batchUpdateKeys_spec_witness :
    objLookup
      (getValues (batchUpdateKeys [("x", 5), ("y", 7)] (initialStore (V := Nat))).1)
      "x" = some 5 :=
  (batchUpdateKeys_spec [("x", 5), ("y", 7)] initialStore (by decide)).1
    "x" 5 (by decide)

/-- C4: `removeKey k` on a store containing `k` makes `k` absent from
`getValues()` and sets the dirty flag; on a store without `k` it leaves the
whole state (mapping and dirty flag alike) unchanged; in both cases it
returns `undefined`. The model is a total function: no error is raised. -/
theorem removeKey_spec (k : String) (s : Store V) :
    ((objLookup s.values k).isSome = true →
      objLookup (getValues (removeKey k s).1) k = none ∧
      (removeKey k s).1.stale = true) ∧
    ((objLookup s.values k).isSome = false →
      (removeKey k s).1 = s) ∧
    (removeKey k s).2 = () := by
  refine ⟨fun h => ⟨?_, ?_⟩, fun h => ?_, rfl⟩
  · simp [removeKey, h, getValues, objLookup_objDelete]
  · simp [removeKey, h]
  · simp [removeKey, h]

/-- Witness for C4: deleting the present key "a" of `sampleStore` removes
it; deleting the absent key "b" changes nothing. -/
theorem removeKey_spec_witness :
    objLookup (getValues (removeKey "a" sampleStore).1) "a" = none ∧
    (removeKey "b" sampleStore).1 = sampleStore :=
  ⟨((removeKey_spec "a" sampleStore).1 (by decide)).1,
   (removeKey_spec "b" sampleStore).2.1 (by decide)⟩

/-- C7: `forceRerender true` changes the state (toggles `render`, i.e.
triggers a reconciliation) exactly when the dirty flag is set, is the
identity when the flag is clear, and never modifies the dirty flag;
`forceRerender false` always changes the state. -/
theorem forceRerender_spec (s : Store V) :
    ((forceRerender true s).1 ≠ s ↔ s.stale = true) ∧
    (s.stale = false → (forceRerender true s).1 = s) ∧
    (forceRerender true s).1.stale = s.stale ∧
    (forceRerender false s).1 ≠ s := by
  have hne : ∀ b : Bool,
      ({ values := s.values, stale := b, render := !s.render } : Store V) ≠ s := by
    intro b
    refine store_ne_of_render_ne ?_
    cases s.render <;> simp
  cases hst : s.stale
  · refine ⟨?_, fun _ => ?_, ?_, ?_⟩
    · simp [forceRerender, hst]
    · simp [forceRerender, hst]
    · simp [forceRerender, hst]
    · simpa [forceRerender, hst] using hne false
  · refine ⟨?_, fun h => ?_, ?_, ?_⟩
    · simp [forceRerender, hst, hne true]
    · simp [hst] at h
    · simp [forceRerender, hst]
    · simpa [forceRerender, hst] using hne true

/-- Witness for C7 on concrete stores: smart refresh of a clean store is the
identity; of a dirty store it is not. -/
theorem forceRerender_spec_witness :
    (forceRerender true (initialStore (V := Nat))).1 = initialStore ∧
    (forceRerender true dirtyStore).1 ≠ dirtyStore :=
  ⟨(forceRerender_spec (initialStore (V := Nat))).2.1 rfl,
   (forceRerender_spec dirtyStore).1.mpr rfl⟩

/-- C8: removing a list of keys and removing any permutation of it from the
same store produce identical final states, and the call returns the current
(post-removal) mapping. -/
theorem batchRemoveKeys_perm_spec (l₁ l₂ : List String) (s : Store V)
    (hp : l₁.Perm l₂) :
    (batchRemoveKeys l₁ s).1 = (batchRemoveKeys l₂ s).1 ∧
    (batchRemoveKeys l₁ s).2 = getValues (batchRemoveKeys l₁ s).1 := by
  refine ⟨?_, rfl⟩
  exact removeAll_perm hp s

/-- Witness for C8: removing ["a", "b"] and ["b", "a"] from the two-key
store agree. -/
theorem batchRemoveKeys_perm_spec_witness :
    (batchRemoveKeys ["a", "b"] samplePairStore).1 =
      (batchRemoveKeys ["b", "a"] samplePairStore).1 :=
  (batchRemoveKeys_perm_spec ["a", "b"] ["b", "a"] samplePairStore
    (List.Perm.swap "b" "a" [])).1

/-- C9: in every variant the per-field hook's effect registers no cleanup
(`none`), so running the unmount step leaves any store state exactly as it
was: no key is removed and nothing else changes. -/
theorem useCapturedState_unmount_spec (name : String) (v d : V) (s : Store V)
    (m : List (String × V)) :
    (useCapturedStateEffect name v s).2 = none ∧
    (∀ t : Store V, runUnmount (useCapturedStateEffect name v s).2 t = t) ∧
    (useCapturedStateEffect001 name d m).2 = none ∧
    (∀ m₁ : List (String × V),
      runUnmount (useCapturedStateEffect001 name d m).2 m₁ = m₁) :=
  ⟨rfl, fun _ => rfl, rfl, fun _ => rfl⟩

/-- C10: `batchUpdateKeys` applied to the empty mapping leaves the values
untouched but still sets the dirty flag (the `makeStale()` call precedes the
loop), so a following smart `forceRerender` is not a no-op: it triggers a
reconciliation. -/
theorem batchUpdateKeys_empty_spec (s : Store V) :
    (batchUpdateKeys ([] : List (String × V)) s).1.values = s.values ∧
    (batchUpdateKeys ([] : List (String × V)) s).1.stale = true ∧
    (forceRerender true (batchUpdateKeys ([] : List (String × V)) s).1).1 ≠
      (batchUpdateKeys ([] : List (String × V)) s).1 := by
  refine ⟨rfl, rfl, ?_⟩
  refine store_ne_of_render_ne ?_
  simp [forceRerender, batchUpdateKeys, updateAll, makeStale, getValues]

/-- C1 counterexample: mount a fresh store, mutate once (`updateKey`), then
`forceRerender true` — a reconciliation is triggered. The claim says a
further `forceRerender true` with no intervening mutation is a no-op that
observes the dirty flag as unset; in fact the flag is still set and the
second call triggers another reconciliation (the state changes again),
because nothing in `forceRerender` ever writes `staleState.current = false`. -/
theorem forceRerender_clears_counterexample :
    ((forceRerender true
        (forceRerender true (updateKey "k" 0 (initialStore (V := Nat))).1).1).1 ≠
      (forceRerender true (updateKey "k" 0 (initialStore (V := Nat))).1).1) ∧
    (forceRerender true (updateKey "k" 0 (initialStore (V := Nat))).1).1 ≠
      (updateKey "k" 0 (initialStore (V := Nat))).1 ∧
    (forceRerender true (updateKey "k" 0 (initialStore (V := Nat))).1).1.stale
      = true := by
  decide

/-- C1 amended: `forceRerender` never modifies the dirty flag (there is no
implicit clearing), so once any mutation has set it, every later
`forceRerender true` — in particular one immediately after a forced
reconciliation with no intervening mutation — triggers another
reconciliation; `forceRerender true` is a no-op only while no mutation has
occurred since the store was created. -/
theorem forceRerender_never_clears_spec (s : Store V) :
    (forceRerender true s).1.stale = s.stale ∧
    (forceRerender false s).1.stale = s.stale ∧
    (s.stale = true →
      (forceRerender true (forceRerender true s).1).1 ≠
        (forceRerender true s).1) ∧
    (s.stale = false → (forceRerender true s).1 = s) := by
  refine ⟨?_, rfl, fun hst => ?_, fun hst => by simp [forceRerender, hst]⟩
  · cases hst : s.stale <;> simp [forceRerender, hst]
  · refine store_ne_of_render_ne ?_
    cases hr : s.render <;> simp [forceRerender, hst, hr]

/-- Witness for the amended C1 on the concrete dirty store. -/
theorem forceRerender_never_clears_spec_witness :
    (forceRerender true (forceRerender true dirtyStore).1).1 ≠
      (forceRerender true dirtyStore).1 :=
  (forceRerender_never_clears_spec dirtyStore).2.2.1 rfl

/-- C5: the fallback bundle seen by consumer hooks outside a provider. All
five mutation functions are (total) no-ops returning `undefined` — that part
of the claim holds. But `getValues` there is the source text
`() => \x7b\x7d`, an empty block body, so `useCapturedValues()` outside a
provider evaluates to `undefined` (`none`), not to an empty mapping
(`some []`) as both the claim and the JSDoc (`@return Object`) state. -/
theorem useCapturedValuesNoProvider_eval :
    useCapturedValuesNoProvider (V := Nat) = none ∧
    useCapturedValuesNoProvider (V := Nat) ≠ some [] ∧
    (∀ k (v : Nat), (captureDefaultValue (V := Nat)).updateKey k v = ()) ∧
    (∀ m, (captureDefaultValue (V := Nat)).batchUpdateKeys m = ()) ∧
    (∀ k, (captureDefaultValue (V := Nat)).removeKey k = ()) ∧
    (∀ l, (captureDefaultValue (V := Nat)).batchRemoveKeys l = ()) ∧
    (∀ b, (captureDefaultValue (V := Nat)).forceRerender b = ()) :=
  ⟨rfl, fun h => Option.noConfusion h, fun _ _ => rfl, fun _ => rfl,
    fun _ => rfl, fun _ => rfl, fun _ => rfl⟩

/-- C6: `batchUpdateKeys` of the part_001 variant throws for its documented
argument type. Evaluated at the concrete failing input
`batchUpdateKeys(\x7ba: 1\x7d)` on an empty store it yields a `TypeError`,
and more generally every plain-object argument makes it throw, since
`for...of` cannot iterate a plain object. -/
theorem batchUpdateKeys001_throws :
    batchUpdateKeys001 ([] : List (String × Nat))
        (JSArg.plainObject [("a", 1)]) =
      Except.error "TypeError: batchValues is not iterable" ∧
    ∀ (oldState entries : List (String × Nat)),
      batchUpdateKeys001 oldState (JSArg.plainObject entries) =
        Except.error "TypeError: batchValues is not iterable" :=
  ⟨rfl, fun _ _ => rfl⟩

end CapturedState
